import Mathlib

/-!
Shallow embedding of `plot_dataset_distributions.py`, the single source file of
this repository.  Energies are modelled as exact rationals; per-atom force
magnitudes, being Euclidean norms, live in `ℝ`.  External collaborators
(filesystem existence checks, the trajectory reader, figure saving) are
parameters of the run, gathered in an `Env` record; console output, figure
state and the save/close operations of the plotting backend are returned
explicitly so that theorems can speak about them.
-/

/-- One structure frame as delivered by the trajectory reader: chemical-symbol
sequence, total potential energy, and one 3-component force vector per atom. -/
structure Frame where
  symbols : List String
  e_total : ℚ
  forces : List (ℚ × ℚ × ℚ)
deriving DecidableEq

/-- Models the external `jhu_colors.get_jhu_color` palette lookup as an opaque
tag derived from the color name. -/
def get_jhu_color (name : String) : String := name

/-- The `ISOLATED_ATOM_ENERGIES` table of the script (element symbol to
isolated-atom energy in eV). -/
def ISOLATED_ATOM_ENERGIES : List (String × ℚ) :=
  [("Cr", -2270.518789079322),
   ("Sb", -1908.633351763048),
   ("Te", -2369.398259284361)]

/-- Python `ISOLATED_ATOM_ENERGIES.get(sym, 0)`: lookup with default 0. -/
def isoGet (sym : String) : ℚ :=
  ((ISOLATED_ATOM_ENERGIES.find? (fun p => p.1 == sym)).map Prod.snd).getD 0

/-- One entry of the `DATASET_FILES` table: source path and display color. -/
structure DatasetInfo where
  path : String
  color : String
deriving DecidableEq

/-- The `DATASET_FILES` table of the script, in its configured order. -/
def DATASET_FILES : List (String × DatasetInfo) :=
  [("Train", ⟨"train.xyz", get_jhu_color "Heritage Blue"⟩),
   ("Validation", ⟨"valid.xyz", get_jhu_color "Spirit Blue"⟩),
   ("Test", ⟨"test.xyz", get_jhu_color "Red"⟩)]

/-- The `OUTPUT_DIR` constant of the script. -/
def OUTPUT_DIR : String := "dataset_analysis_plots"

/-- Path of the saved energy plot, `os.path.join(OUTPUT_DIR, ...)`. -/
def energyPath : String := OUTPUT_DIR ++ "/energy_distribution_comparison.png"

/-- Path of the saved force plot, `os.path.join(OUTPUT_DIR, ...)`. -/
def forcePath : String := OUTPUT_DIR ++ "/force_distribution_comparison.png"

/-- The external world of one run: filesystem existence, the trajectory
reader (`none` models a read failure on an existing file), whether the output
directory already exists, and whether each `savefig` call succeeds. -/
structure Env where
  pathExists : String → Bool
  readFrames : String → Option (List Frame)
  dirExists : String → Bool
  savefigOk : String → Bool

/-- Euclidean norm of one 3-component force vector,
`np.linalg.norm(forces, axis=1)` applied to one row. -/
noncomputable def norm3 (v : ℚ × ℚ × ℚ) : ℝ :=
  Real.sqrt ((v.1 * v.1 + v.2.1 * v.2.1 + v.2.2 * v.2.2 : ℚ) : ℝ)

/-- Per-frame isolated-atom reference sum:
`sum(ISOLATED_ATOM_ENERGIES.get(sym, 0) for sym in atoms.get_chemical_symbols())`. -/
def e0_sum (atoms : Frame) : ℚ := (atoms.symbols.map isoGet).sum

/-- The progress line `print(f"Processing '{filepath}'...")`. -/
def processingMsg (filepath : String) : String :=
  "Processing \x27" ++ filepath ++ "\x27..."

/-- The warning line `print(f"Warning: File not found: {filepath}. Skipping.")`. -/
def warningMsg (filepath : String) : String :=
  "Warning: File not found: " ++ filepath ++ ". Skipping."

/-- The extractor `load_and_process_data`.  Returns the console lines it
prints together with `some (energies_per_atom, all_force_magnitudes)`, or
`none` when the trajectory reader raises on an existing file (the exception
propagates). -/
noncomputable def load_and_process_data (env : Env) (filepath : String) :
    List String × Option (List ℚ × List ℝ) :=
  if env.pathExists filepath = false then
    ([warningMsg filepath], some ([], []))
  else
    match env.readFrames filepath with
    | none => ([processingMsg filepath], none)
    | some frames =>
        ([processingMsg filepath],
         some (frames.filterMap (fun atoms =>
                 if 0 < atoms.symbols.length then
                   some ((atoms.e_total - e0_sum atoms) / (atoms.symbols.length : ℚ))
                 else none),
               frames.flatMap (fun atoms => atoms.forces.map norm3)))

/-- Insert into a sorted list, auxiliary for `sortList`. -/
def sortedInsert {α : Type} [LinearOrder α] (a : α) : List α → List α
  | [] => [a]
  | b :: t => if a ≤ b then a :: b :: t else b :: sortedInsert a t

/-- Insertion sort, auxiliary for the percentile model. -/
def sortList {α : Type} [LinearOrder α] : List α → List α
  | [] => []
  | a :: t => sortedInsert a (sortList t)

/-- Models `np.percentile(xs, 90)` with numpy's default linear interpolation:
with the sorted values `s` of length `n`, the sample position is
`0.9 * (n - 1)`; the result interpolates between the neighbouring sorted
values.  On an empty sequence numpy raises (`none` here). -/
def percentile90 {α : Type} [LinearOrderedField α] (xs : List α) : Option α :=
  let s := sortList xs
  let n := s.length
  if n = 0 then none
  else
    let m := 9 * (n - 1)
    let i := m / 10
    let lo := s.getD i 0
    let hi := s.getD (i + 1) lo
    some (lo + (((m % 10 : ℕ) : α) / 10) * (hi - lo))

/-- Models `os.makedirs(dir, exist_ok=ok)`: raises `FileExistsError` exactly
when the directory exists and `exist_ok` is false. -/
def makedirs (dirAlready : Bool) (exist_ok : Bool) : Except String Unit :=
  if dirAlready && !exist_ok then Except.error "FileExistsError" else Except.ok ()

/-- The aggregation loop of `plot_distributions`: one extractor call per
configured dataset, console lines concatenated in order; a read failure
aborts the loop and propagates. -/
noncomputable def loadAll (env : Env) :
    List (String × DatasetInfo) →
      List String × Except String (List (String × (List ℚ × List ℝ)))
  | [] => ([], Except.ok [])
  | (label, info) :: rest =>
    match load_and_process_data env info.path with
    | (lines, none) => (lines, Except.error ("ase.io.read failed: " ++ info.path))
    | (lines, some pair) =>
      match loadAll env rest with
      | (lines2, Except.error e) => (lines ++ lines2, Except.error e)
      | (lines2, Except.ok tail) => (lines ++ lines2, Except.ok ((label, pair) :: tail))

/-- Python `all_data[k]` on the label-keyed mapping (insertion-ordered). -/
def lookupData (ad : List (String × (List ℚ × List ℝ))) (k : String) :
    List ℚ × List ℝ :=
  ((ad.find? (fun p => p.1 == k)).map Prod.snd).getD ([], [])

/-- Python `DATASET_FILES[label]`. -/
def lookupInfo (label : String) : DatasetInfo :=
  ((DATASET_FILES.find? (fun p => p.1 == label)).map Prod.snd).getD ⟨"", ""⟩

/-- State of one matplotlib figure at the end of the run: the kde curves in
draw order (label, color) — the legend entries are exactly these labels —
the fixed decorations, the x-range if it was set, the saved path and dpi if
`savefig` succeeded, and whether `plt.close` ran. -/
structure PlotSpec where
  curves : List (String × String)
  title : String
  xlabel : String
  ylabel : String
  legendTitle : String
  gridAxis : String
  xlim : Option (ℝ × ℝ)
  saved : Option (String × Nat)
  closed : Bool

/-- Backend operations in execution order, for save/close ordering. -/
inductive Op where
  | save (path : String) (dpi : Nat)
  | close (fig : Nat)

/-- Everything observable about one run of `plot_distributions`. -/
structure RunResult where
  console : List String
  figs : List PlotSpec
  ops : List Op
  outcome : Except String Unit

/-- The energy xlabel string `'$E^{\rm atm}$ (eV/atom)'` of the script. -/
def energyXLabel : String := "$E^\x7b\\rm atm\x7d$ (eV/atom)"

/-- The force xlabel string of the script. -/
def forceXLabel : String := "Force Magnitude (eV/Å)"

/-- The energy figure right after the kde loop and the fixed decorations
(lines 80-90 of the script), before `set_xlim`. -/
def energyFigBase (all_data : List (String × (List ℚ × List ℝ))) : PlotSpec :=
  { curves := (all_data.filter (fun p => !p.2.1.isEmpty)).map
                (fun p => (p.1, (lookupInfo p.1).color))
    title := "Distribution of Atomic Energy per Atom"
    xlabel := energyXLabel
    ylabel := "Density"
    legendTitle := "Dataset"
    gridAxis := "y"
    xlim := none
    saved := none
    closed := false }

/-- The force figure right after the kde loop and the fixed decorations
(lines 100-110 of the script), before `set_xlim`. -/
def forceFigBase (all_data : List (String × (List ℚ × List ℝ))) : PlotSpec :=
  { curves := (all_data.filter (fun p => !p.2.2.isEmpty)).map
                (fun p => (p.1, (lookupInfo p.1).color))
    title := "Distribution of Atomic Force Magnitudes"
    xlabel := forceXLabel
    ylabel := "Density"
    legendTitle := "Dataset"
    gridAxis := "y"
    xlim := none
    saved := none
    closed := false }

/-- Confirmation line after the energy plot is saved. -/
def energySavedMsg : String :=
  "\n✅ Energy distribution plot saved to: " ++ energyPath

/-- Confirmation line after the force plot is saved. -/
def forceSavedMsg : String :=
  "✅ Force distribution plot saved to: " ++ forcePath

/-- Lines 79-117 of the script: everything after the aggregation loop.  The
two plot blocks run in sequence; `np.percentile` on an empty sequence and a
failing `savefig` raise, leaving the remaining statements (including
`plt.close`) unexecuted. -/
noncomputable def afterLoad (console : List String) (env : Env)
    (all_data : List (String × (List ℚ × List ℝ))) : RunResult :=
  let fig1 := energyFigBase all_data
  let train := lookupData all_data "Train"
  match percentile90 train.1 with
  | none => ⟨console, [fig1], [], Except.error "IndexError: percentile of empty sequence"⟩
  | some pE =>
    let fig1 := { fig1 with xlim := some ((-5 : ℝ), max ((pE : ℝ)) (0.5 : ℝ)) }
    if env.savefigOk energyPath then
      let fig1 := { fig1 with saved := some (energyPath, 300), closed := true }
      let console := console ++ [energySavedMsg]
      let fig2 := forceFigBase all_data
      match percentile90 train.2 with
      | none =>
          ⟨console, [fig1, fig2], [Op.save energyPath 300, Op.close 1],
           Except.error "IndexError: percentile of empty sequence"⟩
      | some pF =>
        let fig2 := { fig2 with xlim := some ((0 : ℝ), max pF (5 : ℝ)) }
        if env.savefigOk forcePath then
          ⟨console ++ [forceSavedMsg],
           [fig1, { fig2 with saved := some (forcePath, 300), closed := true }],
           [Op.save energyPath 300, Op.close 1, Op.save forcePath 300, Op.close 2],
           Except.ok ()⟩
        else
          ⟨console, [fig1, fig2], [Op.save energyPath 300, Op.close 1],
           Except.error ("savefig failed: " ++ forcePath)⟩
    else
      ⟨console, [fig1], [], Except.error ("savefig failed: " ++ energyPath)⟩

/-- The whole `plot_distributions` function: ensure the output directory,
aggregate all datasets, then run the two plot blocks. -/
noncomputable def plot_distributions (env : Env) : RunResult :=
  match makedirs (env.dirExists OUTPUT_DIR) true with
  | Except.error e => ⟨[], [], [], Except.error e⟩
  | Except.ok _ =>
    match loadAll env DATASET_FILES with
    | (console, Except.error e) => ⟨console, [], [], Except.error e⟩
    | (console, Except.ok all_data) => afterLoad console env all_data

/-- The environment as it looks after a completed run: the output directory
now exists, everything else unchanged. -/
def afterRun (env : Env) : Env :=
  { env with dirExists := fun d => d == OUTPUT_DIR || env.dirExists d }

/-! ## Concrete runs used as witnesses and counterexamples -/

/-- Frame A of the spec's test scenario: 2 atoms Cr and Sb. -/
def frameA : Frame := ⟨["Cr", "Sb"], -4179.15, [(0, 0, 1), (0, 0, -1)]⟩

/-- Frame B of the spec's test scenario: 1 atom Te. -/
def frameB : Frame := ⟨["Te"], -2369.40, [(3, 4, 0)]⟩

/-- A world where `train.xyz` holds the spec's two-frame scenario and the
other files exist but are empty. -/
def envW : Env :=
  { pathExists := fun _ => true
    readFrames := fun p => if p == "train.xyz" then some [frameA, frameB] else some []
    dirExists := fun _ => false
    savefigOk := fun _ => true }

/-- A world where every configured file exists and holds zero frames. -/
def envT0 : Env :=
  { pathExists := fun _ => true
    readFrames := fun _ => some []
    dirExists := fun _ => true
    savefigOk := fun _ => true }

/-- One frame with a single atom of an element absent from the reference
table, with a unit force along z. -/
def frameC4 : Frame := ⟨["H"], 1, [(0, 0, 1)]⟩

/-- A world where `train.xyz` holds `frameC4`, the other files exist and are
empty, and every `savefig` succeeds: the run completes. -/
def envC4 : Env :=
  { pathExists := fun _ => true
    readFrames := fun p => if p == "train.xyz" then some [frameC4] else some []
    dirExists := fun _ => false
    savefigOk := fun _ => true }

/-- A world identical to `envC4` except that every `savefig` call fails. -/
def envSfail : Env :=
  { pathExists := fun _ => true
    readFrames := fun p => if p == "train.xyz" then some [frameC4] else some []
    dirExists := fun _ => false
    savefigOk := fun _ => false }

/-- A world where no configured file exists: the aggregation loop stores
three empty results and the energy percentile aborts the run. -/
def env9 : Env :=
  { pathExists := fun _ => false
    readFrames := fun _ => none
    dirExists := fun _ => true
    savefigOk := fun _ => true }

/-- The energy figure produced by the `env9` run, written out. -/
def fig9 : PlotSpec :=
  { curves := []
    title := "Distribution of Atomic Energy per Atom"
    xlabel := energyXLabel
    ylabel := "Density"
    legendTitle := "Dataset"
    gridAxis := "y"
    xlim := none
    saved := none
    closed := false }

/-- A frame with one Te atom used by the C3 counterexample. -/
def frameV : Frame := ⟨["Te"], 1, [(0, 0, 1)]⟩

/-- A world where `train.xyz` is missing but `valid.xyz` exists with one
one-atom frame (non-empty energies and forces) and `test.xyz` is empty. -/
def envTmiss : Env :=
  { pathExists := fun p => !(p == "train.xyz")
    readFrames := fun p => if p == "valid.xyz" then some [frameV] else some []
    dirExists := fun _ => false
    savefigOk := fun _ => true }

/-- A world where only `valid.xyz` is missing; the other files exist and are
empty. -/
def envVmiss : Env :=
  { pathExists := fun p => !(p == "valid.xyz")
    readFrames := fun _ => some []
    dirExists := fun _ => true
    savefigOk := fun _ => true }

/-! ## Helper lemmas -/

theorem makedirs_exist_ok (b : Bool) : makedirs b true = Except.ok () := by
  cases b <;> rfl

theorem sortedInsert_length {α : Type} [LinearOrder α] (a : α) (l : List α) :
    (sortedInsert a l).length = l.length + 1 := by
  induction l with
  | nil => rfl
  | cons b t ih =>
      unfold sortedInsert
      split
      · rfl
      · simp [ih]

theorem sortList_length {α : Type} [LinearOrder α] (l : List α) :
    (sortList l).length = l.length := by
  induction l with
  | nil => rfl
  | cons a t ih => simp [sortList, sortedInsert_length, ih]

theorem percentile90_eq_none_iff {α : Type} [LinearOrderedField α] (xs : List α) :
    percentile90 xs = none ↔ xs = [] := by
  simp only [percentile90]
  split
  · rename_i h
    rw [sortList_length, List.length_eq_zero] at h
    simp [h]
  · rename_i h
    rw [sortList_length, List.length_eq_zero] at h
    simp [h]

theorem load_found (env : Env) (fp : String) (frames : List Frame)
    (hp : env.pathExists fp = true) (hr : env.readFrames fp = some frames) :
    load_and_process_data env fp =
      ([processingMsg fp],
       some (frames.filterMap (fun atoms =>
               if 0 < atoms.symbols.length then
                 some ((atoms.e_total - e0_sum atoms) / (atoms.symbols.length : ℚ))
               else none),
             frames.flatMap (fun atoms => atoms.forces.map norm3))) := by
  simp [load_and_process_data, hp, hr]

theorem load_missing (env : Env) (fp : String) (hp : env.pathExists fp = false) :
    load_and_process_data env fp = ([warningMsg fp], some ([], [])) := by
  simp [load_and_process_data, hp]

theorem filterMap_ite_eq_filter_map {α β : Type} (p : α → Prop) [DecidablePred p]
    (g : α → β) (l : List α) :
    l.filterMap (fun a => if p a then some (g a) else none)
      = (l.filter (fun a => decide (p a))).map g := by
  induction l with
  | nil => rfl
  | cons a t ih =>
      by_cases h : p a <;> simp [List.filterMap_cons, List.filter_cons, h, ih]

theorem loadAll_ok_eq (env : Env) (cfg : List (String × DatasetInfo))
    (cs : List String) (ad : List (String × (List ℚ × List ℝ)))
    (h : loadAll env cfg = (cs, Except.ok ad)) :
    ad = cfg.map (fun li =>
      (li.1, (load_and_process_data env li.2.path).2.getD ([], []))) := by
  induction cfg generalizing cs ad with
  | nil =>
      simp only [loadAll] at h
      cases h
      rfl
  | cons head rest ih =>
      obtain ⟨label, info⟩ := head
      cases hl : load_and_process_data env info.path with
      | mk lines r =>
        cases r with
        | none => simp [loadAll, hl] at h
        | some pair =>
            cases hrest : loadAll env rest with
            | mk lines2 r2 =>
              cases r2 with
              | error e => simp [loadAll, hl, hrest] at h
              | ok tail =>
                  simp only [loadAll, hl, hrest] at h
                  cases h
                  simp [ih lines2 tail hrest, hl]

theorem plot_eq_afterLoad (env : Env) (cs : List String)
    (ad : List (String × (List ℚ × List ℝ)))
    (hl : loadAll env DATASET_FILES = (cs, Except.ok ad)) :
    plot_distributions env = afterLoad cs env ad := by
  simp [plot_distributions, makedirs_exist_ok, hl]

theorem plot_loadAll_error (env : Env) (cs : List String) (e : String)
    (hl : loadAll env DATASET_FILES = (cs, Except.error e)) :
    plot_distributions env = ⟨cs, [], [], Except.error e⟩ := by
  simp [plot_distributions, makedirs_exist_ok, hl]

theorem lookupData_train (env : Env) (cs : List String)
    (ad : List (String × (List ℚ × List ℝ)))
    (hl : loadAll env DATASET_FILES = (cs, Except.ok ad)) :
    lookupData ad "Train" = (load_and_process_data env "train.xyz").2.getD ([], []) := by
  rw [loadAll_ok_eq env DATASET_FILES cs ad hl]
  simp [DATASET_FILES, lookupData]

/-! ## Claims about the extractor -/

/-- C1: for every frame with a positive atom count the extractor emits exactly
one normalized energy, `(E_total − Σ reference[symbol]) / atom_count` with
absent symbols contributing 0, in frame order; zero-atom frames contribute no
value and raise no error. -/
theorem claim1_energy_normalization (env : Env) (fp : String) (frames : List Frame)
    (hp : env.pathExists fp = true) (hr : env.readFrames fp = some frames) :
    (load_and_process_data env fp).2.map Prod.fst
      = some ((frames.filter (fun f => 0 < f.symbols.length)).map
          (fun f => (f.e_total - (f.symbols.map isoGet).sum) / (f.symbols.length : ℚ)))
    ∧ (∀ s : String, (∀ q ∈ ISOLATED_ATOM_ENERGIES, q.1 ≠ s) → isoGet s = 0) := by
  constructor
  · rw [load_found env fp frames hp hr]
    simp only [Option.map_some]
    rw [show (fun atoms : Frame =>
          if 0 < atoms.symbols.length then
            some ((atoms.e_total - e0_sum atoms) / (atoms.symbols.length : ℚ))
          else none)
        = (fun atoms : Frame =>
          if 0 < atoms.symbols.length then
            some ((atoms.e_total - (atoms.symbols.map isoGet).sum) / (atoms.symbols.length : ℚ))
          else none) from rfl]
    rw [filterMap_ite_eq_filter_map (fun f : Frame => 0 < f.symbols.length)
          (fun f : Frame => (f.e_total - (f.symbols.map isoGet).sum) / (f.symbols.length : ℚ))
          frames]
    rfl
  · intro s hs
    unfold isoGet
    rw [List.find?_eq_none.mpr]
    · rfl
    · intro q hq
      simp [hs q hq]

/-- C2: the extractor appends one force magnitude per atom, each the Euclidean
norm of that atom's 3-component force vector (hence nonnegative), preserving
per-frame then per-atom order, so the total count is the sum of the frames'
atom counts. -/
theorem claim2_force_magnitudes (env : Env) (fp : String) (frames : List Frame)
    (ms : List ℝ)
    (hp : env.pathExists fp = true) (hr : env.readFrames fp = some frames)
    (hms : (load_and_process_data env fp).2.map Prod.snd = some ms)
    (hlen : ∀ f ∈ frames, f.forces.length = f.symbols.length) :
    ms = (frames.flatMap Frame.forces).map norm3
    ∧ ms.length = (frames.map (fun f => f.symbols.length)).sum
    ∧ ∀ x ∈ ms, 0 ≤ x := by
  rw [load_found env fp frames hp hr] at hms
  have hms' : frames.flatMap (fun atoms => atoms.forces.map norm3) = ms := by
    simpa using hms
  subst hms'
  refine ⟨?_, ?_, ?_⟩
  · rw [List.map_flatMap]
  · rw [List.length_flatMap]
    congr 1
    apply List.map_congr_left
    intro f hf
    simp [hlen f hf]
  · intro x hx
    rw [List.mem_flatMap] at hx
    obtain ⟨f, _, hx⟩ := hx
    rw [List.mem_map] at hx
    obtain ⟨v, _, rfl⟩ := hx
    exact Real.sqrt_nonneg _

/-- C8: an existing file with zero frames yields two empty sequences, no
crash, and only the progress line — the missing-file warning is not emitted. -/
theorem claim8_empty_file (env : Env) (fp : String)
    (hp : env.pathExists fp = true) (hr : env.readFrames fp = some []) :
    load_and_process_data env fp = ([processingMsg fp], some ([], []))
    ∧ warningMsg fp ∉ (load_and_process_data env fp).1 := by
  have h := load_found env fp [] hp hr
  simp only [List.filterMap_nil, List.flatMap_nil] at h
  refine ⟨h, ?_⟩
  rw [h]
  simp only [List.mem_singleton]
  intro heq
  have hlen := congrArg String.length heq
  simp only [warningMsg, processingMsg, String.length_append] at hlen
  have h1 : ("Warning: File not found: " : String).length = 25 := rfl
  have h2 : (". Skipping." : String).length = 11 := rfl
  have h3 : ("Processing \x27" : String).length = 12 := rfl
  have h4 : ("\x27..." : String).length = 4 := rfl
  omega

/-- Witness for C1 at the spec's scenario file. -/
theorem claim1_energy_normalization_applied :
    (load_and_process_data envW "train.xyz").2.map Prod.fst
      = some (([frameA, frameB].filter (fun f => 0 < f.symbols.length)).map
          (fun f => (f.e_total - (f.symbols.map isoGet).sum) / (f.symbols.length : ℚ))) :=
  (claim1_energy_normalization envW "train.xyz" [frameA, frameB] rfl rfl).1

/-- Witness for C2 at the spec's scenario file. -/
theorem claim2_force_magnitudes_applied :
    [frameA, frameB].flatMap (fun f => f.forces.map norm3)
        = ([frameA, frameB].flatMap Frame.forces).map norm3
    ∧ ([frameA, frameB].flatMap (fun f => f.forces.map norm3)).length
        = ([frameA, frameB].map (fun f => f.symbols.length)).sum :=
  ⟨(claim2_force_magnitudes envW "train.xyz" [frameA, frameB]
      ([frameA, frameB].flatMap (fun f => f.forces.map norm3))
      rfl rfl rfl (by decide)).1,
   (claim2_force_magnitudes envW "train.xyz" [frameA, frameB]
      ([frameA, frameB].flatMap (fun f => f.forces.map norm3))
      rfl rfl rfl (by decide)).2.1⟩

/-- Witness for C8 at an existing empty file. -/
theorem claim8_empty_file_applied :
    load_and_process_data envT0 "train.xyz" = ([processingMsg "train.xyz"], some ([], []))
    ∧ warningMsg "train.xyz" ∉ (load_and_process_data envT0 "train.xyz").1 :=
  claim8_empty_file envT0 "train.xyz" rfl rfl

theorem afterLoad_cases (cs : List String) (env : Env)
    (ad : List (String × (List ℚ × List ℝ))) :
    (percentile90 (lookupData ad "Train").1 = none
      ∧ afterLoad cs env ad
          = ⟨cs, [energyFigBase ad], [],
             Except.error "IndexError: percentile of empty sequence"⟩)
    ∨ (∃ pE, percentile90 (lookupData ad "Train").1 = some pE
        ∧ env.savefigOk energyPath = false
        ∧ afterLoad cs env ad
            = ⟨cs,
               [{ energyFigBase ad with
                    xlim := some ((-5 : ℝ), max ((pE : ℝ)) (0.5 : ℝ)) }],
               [], Except.error ("savefig failed: " ++ energyPath)⟩)
    ∨ (∃ pE, percentile90 (lookupData ad "Train").1 = some pE
        ∧ env.savefigOk energyPath = true
        ∧ percentile90 (lookupData ad "Train").2 = none
        ∧ afterLoad cs env ad
            = ⟨cs ++ [energySavedMsg],
               [{ energyFigBase ad with
                    xlim := some ((-5 : ℝ), max ((pE : ℝ)) (0.5 : ℝ)),
                    saved := some (energyPath, 300), closed := true },
                forceFigBase ad],
               [Op.save energyPath 300, Op.close 1],
               Except.error "IndexError: percentile of empty sequence"⟩)
    ∨ (∃ pE pF, percentile90 (lookupData ad "Train").1 = some pE
        ∧ env.savefigOk energyPath = true
        ∧ percentile90 (lookupData ad "Train").2 = some pF
        ∧ env.savefigOk forcePath = false
        ∧ afterLoad cs env ad
            = ⟨cs ++ [energySavedMsg],
               [{ energyFigBase ad with
                    xlim := some ((-5 : ℝ), max ((pE : ℝ)) (0.5 : ℝ)),
                    saved := some (energyPath, 300), closed := true },
                { forceFigBase ad with
                    xlim := some ((0 : ℝ), max pF (5 : ℝ)) }],
               [Op.save energyPath 300, Op.close 1],
               Except.error ("savefig failed: " ++ forcePath)⟩)
    ∨ (∃ pE pF, percentile90 (lookupData ad "Train").1 = some pE
        ∧ env.savefigOk energyPath = true
        ∧ percentile90 (lookupData ad "Train").2 = some pF
        ∧ env.savefigOk forcePath = true
        ∧ afterLoad cs env ad
            = ⟨cs ++ [energySavedMsg] ++ [forceSavedMsg],
               [{ energyFigBase ad with
                    xlim := some ((-5 : ℝ), max ((pE : ℝ)) (0.5 : ℝ)),
                    saved := some (energyPath, 300), closed := true },
                { forceFigBase ad with
                    xlim := some ((0 : ℝ), max pF (5 : ℝ)),
                    saved := some (forcePath, 300), closed := true }],
               [Op.save energyPath 300, Op.close 1, Op.save forcePath 300, Op.close 2],
               Except.ok ()⟩) := by
  cases hpe : percentile90 (lookupData ad "Train").1 with
  | none =>
      exact Or.inl ⟨rfl, by simp [afterLoad, hpe]⟩
  | some pE =>
      cases hs1 : env.savefigOk energyPath with
      | false =>
          exact Or.inr (Or.inl ⟨pE, rfl, rfl, by simp [afterLoad, hpe, hs1]⟩)
      | true =>
          cases hpf : percentile90 (lookupData ad "Train").2 with
          | none =>
              exact Or.inr (Or.inr (Or.inl
                ⟨pE, rfl, rfl, rfl, by simp [afterLoad, hpe, hs1, hpf]⟩))
          | some pF =>
              cases hs2 : env.savefigOk forcePath with
              | false =>
                  exact Or.inr (Or.inr (Or.inr (Or.inl
                    ⟨pE, pF, rfl, rfl, rfl, rfl, by simp [afterLoad, hpe, hs1, hpf, hs2]⟩)))
              | true =>
                  exact Or.inr (Or.inr (Or.inr (Or.inr
                    ⟨pE, pF, rfl, rfl, rfl, rfl, by simp [afterLoad, hpe, hs1, hpf, hs2]⟩)))

theorem afterLoad_ok_inv (cs : List String) (env : Env)
    (ad : List (String × (List ℚ × List ℝ)))
    (h : (afterLoad cs env ad).outcome = Except.ok ()) :
    (lookupData ad "Train").1 ≠ [] ∧ (lookupData ad "Train").2 ≠ [] := by
  rcases afterLoad_cases cs env ad with
      ⟨_, heq⟩ | ⟨pE, _, _, heq⟩ | ⟨pE, _, _, _, heq⟩
    | ⟨pE, pF, _, _, _, _, heq⟩ | ⟨pE, pF, hpe, _, hpf, _, heq⟩ <;>
    rw [heq] at h <;> simp at h
  constructor
  · intro hnil
    rw [(percentile90_eq_none_iff _).mpr hnil] at hpe
    exact Option.noConfusion hpe
  · intro hnil
    rw [(percentile90_eq_none_iff _).mpr hnil] at hpf
    exact Option.noConfusion hpf

theorem load_train_pair (env : Env) (es : List ℚ) (ms : List ℝ)
    (hE : (load_and_process_data env "train.xyz").2.map Prod.fst = some es)
    (hF : (load_and_process_data env "train.xyz").2.map Prod.snd = some ms) :
    (load_and_process_data env "train.xyz").2 = some (es, ms) := by
  cases h2 : (load_and_process_data env "train.xyz").2 with
  | none => rw [h2] at hE; exact Option.noConfusion hE
  | some pair =>
      rw [h2] at hE hF
      simp only [Option.map_some', Option.some.injEq] at hE hF
      rw [← hE, ← hF]

/-- C5: if the first configured dataset (`Train`) yields an empty energy or
force sequence, the percentile used for axis scaling is undefined and the run
aborts instead of completing. -/
theorem claim5_empty_first_dataset_fatal (env : Env) (es : List ℚ) (ms : List ℝ)
    (hE : (load_and_process_data env "train.xyz").2.map Prod.fst = some es)
    (hF : (load_and_process_data env "train.xyz").2.map Prod.snd = some ms)
    (hdeg : es = [] ∨ ms = []) :
    percentile90 ([] : List ℚ) = none
    ∧ (DATASET_FILES.map (fun p => (p.1, p.2.path))).head? = some ("Train", "train.xyz")
    ∧ (plot_distributions env).outcome ≠ Except.ok () := by
  refine ⟨rfl, rfl, ?_⟩
  intro hok
  cases hmk : loadAll env DATASET_FILES with
  | mk cs r =>
    cases r with
    | error e =>
        rw [plot_loadAll_error env cs e hmk] at hok
        exact Except.noConfusion hok
    | ok ad =>
        rw [plot_eq_afterLoad env cs ad hmk] at hok
        have htr : lookupData ad "Train" = (es, ms) := by
          rw [lookupData_train env cs ad hmk, load_train_pair env es ms hE hF]
          rfl
        have hne := afterLoad_ok_inv cs env ad hok
        rw [htr] at hne
        rcases hdeg with h | h
        · exact hne.1 h
        · exact hne.2 h

/-- C5 witness: every file exists and holds zero frames, so the Train energy
sequence is empty and the run aborts at the percentile step. -/
theorem claim5_applied :
    percentile90 ([] : List ℚ) = none
    ∧ (DATASET_FILES.map (fun p => (p.1, p.2.path))).head? = some ("Train", "train.xyz")
    ∧ (plot_distributions envT0).outcome ≠ Except.ok () :=
  claim5_empty_first_dataset_fatal envT0 [] [] rfl rfl (Or.inl rfl)

/-- C4: in a completed run, the energy plot's x-range is
`[-5, max(p90(Train energies), 0.5)]` and the force plot's x-range is
`[0, max(p90(Train forces), 5)]`, where `Train` is the first configured
dataset and `p90` is the 90th percentile. -/
theorem claim4_xlim_ranges (env : Env) (es : List ℚ) (ms : List ℝ)
    (hE : (load_and_process_data env "train.xyz").2.map Prod.fst = some es)
    (hF : (load_and_process_data env "train.xyz").2.map Prod.snd = some ms)
    (hne : es ≠ []) (hnf : ms ≠ [])
    (hok : (plot_distributions env).outcome = Except.ok ()) :
    (DATASET_FILES.map Prod.fst).head? = some "Train"
    ∧ (plot_distributions env).figs.map PlotSpec.xlim
        = [some ((-5 : ℝ), max (((percentile90 es).getD 0 : ℚ) : ℝ) (0.5 : ℝ)),
           some ((0 : ℝ), max ((percentile90 ms).getD 0) (5 : ℝ))] := by
  refine ⟨rfl, ?_⟩
  cases hmk : loadAll env DATASET_FILES with
  | mk cs r =>
    cases r with
    | error e =>
        rw [plot_loadAll_error env cs e hmk] at hok
        exact Except.noConfusion hok
    | ok ad =>
        rw [plot_eq_afterLoad env cs ad hmk] at hok ⊢
        have htr : lookupData ad "Train" = (es, ms) := by
          rw [lookupData_train env cs ad hmk, load_train_pair env es ms hE hF]
          rfl
        rcases afterLoad_cases cs env ad with
            ⟨_, heq⟩ | ⟨pE, _, _, heq⟩ | ⟨pE, _, _, _, heq⟩
          | ⟨pE, pF, _, _, _, _, heq⟩ | ⟨pE, pF, hpe, _, hpf, _, heq⟩
        · rw [heq] at hok; exact Except.noConfusion hok
        · rw [heq] at hok; exact Except.noConfusion hok
        · rw [heq] at hok; exact Except.noConfusion hok
        · rw [heq] at hok; exact Except.noConfusion hok
        · rw [htr] at hpe hpf
          rw [heq]
          simp [hpe, hpf]

/-- C4 witness: a completed concrete run with non-empty Train sequences. -/
theorem claim4_xlim_ranges_applied :
    (DATASET_FILES.map Prod.fst).head? = some "Train"
    ∧ (plot_distributions envC4).figs.map PlotSpec.xlim
        = [some ((-5 : ℝ),
             max (((percentile90
               [(frameC4.e_total - e0_sum frameC4) / (frameC4.symbols.length : ℚ)]).getD 0 : ℚ) : ℝ)
               (0.5 : ℝ)),
           some ((0 : ℝ),
             max ((percentile90 [norm3 (0, 0, 1)]).getD 0) (5 : ℝ))] :=
  claim4_xlim_ranges envC4
    [(frameC4.e_total - e0_sum frameC4) / (frameC4.symbols.length : ℚ)]
    [norm3 (0, 0, 1)] rfl rfl (by simp) (by simp) rfl

/-- C6 (amended): each figure is closed only after its image is successfully
saved at 300 DPI; in a completed run the backend operations are exactly
save-then-close for each figure in order, while a figure whose save did not
happen is never closed. -/
theorem claim6_close_after_save_amended (env : Env) :
    ((plot_distributions env).outcome = Except.ok () →
       (plot_distributions env).ops
         = [Op.save energyPath 300, Op.close 1, Op.save forcePath 300, Op.close 2]
       ∧ (plot_distributions env).figs.map PlotSpec.closed = [true, true]
       ∧ (plot_distributions env).figs.map PlotSpec.saved
           = [some (energyPath, 300), some (forcePath, 300)])
    ∧ (∀ fig ∈ (plot_distributions env).figs, fig.saved = none → fig.closed = false) := by
  cases hmk : loadAll env DATASET_FILES with
  | mk cs r =>
    cases r with
    | error e =>
        rw [plot_loadAll_error env cs e hmk]
        exact ⟨fun hok => Except.noConfusion hok, by simp⟩
    | ok ad =>
        rw [plot_eq_afterLoad env cs ad hmk]
        rcases afterLoad_cases cs env ad with
            ⟨_, heq⟩ | ⟨pE, _, _, heq⟩ | ⟨pE, _, _, _, heq⟩
          | ⟨pE, pF, _, _, _, _, heq⟩ | ⟨pE, pF, _, _, _, _, heq⟩ <;>
          rw [heq] <;>
          refine ⟨fun hok => ?_, ?_⟩
        · exact Except.noConfusion hok
        · intro fig hfig hsaved
          simp only [List.mem_singleton] at hfig
          subst hfig
          simp [energyFigBase]
        · exact Except.noConfusion hok
        · intro fig hfig hsaved
          simp only [List.mem_singleton] at hfig
          subst hfig
          simp [energyFigBase]
        · exact Except.noConfusion hok
        · intro fig hfig hsaved
          rcases List.mem_pair.mp hfig with h | h <;> subst h
          · simp at hsaved
          · simp [forceFigBase]
        · exact Except.noConfusion hok
        · intro fig hfig hsaved
          rcases List.mem_pair.mp hfig with h | h <;> subst h
          · simp at hsaved
          · simp [forceFigBase]
        · exact ⟨rfl, rfl, rfl⟩
        · intro fig hfig hsaved
          rcases List.mem_pair.mp hfig with h | h <;> subst h <;> simp at hsaved

/-- C6 counterexample: when the energy-plot save fails, the exception
propagates and the figure is never closed — the release does not happen "on
success or failure". -/
theorem claim6_counterexample :
    (plot_distributions envSfail).outcome
      = Except.error ("savefig failed: " ++ energyPath)
    ∧ (plot_distributions envSfail).figs.map PlotSpec.closed = [false]
    ∧ (plot_distributions envSfail).ops = [] :=
  ⟨rfl, rfl, rfl⟩

/-- C6 witness: in a completed concrete run both figures are saved at 300 DPI
and closed, in save-close order. -/
theorem claim6_close_after_save_applied :
    (plot_distributions envC4).ops
      = [Op.save energyPath 300, Op.close 1, Op.save forcePath 300, Op.close 2]
    ∧ (plot_distributions envC4).figs.map PlotSpec.closed = [true, true]
    ∧ (plot_distributions envC4).figs.map PlotSpec.saved
        = [some (energyPath, 300), some (forcePath, 300)] :=
  (claim6_close_after_save_amended envC4).1 rfl

/-- C7: a second run over identical inputs with the output directory already
present recreates the directory without error and produces the identical run
result (console, figures, backend operations, outcome). -/
theorem claim7_idempotent_rerun (env : Env) :
    (afterRun env).dirExists OUTPUT_DIR = true
    ∧ makedirs ((afterRun env).dirExists OUTPUT_DIR) true = Except.ok ()
    ∧ plot_distributions (afterRun env) = plot_distributions env := by
  refine ⟨by simp [afterRun], makedirs_exist_ok _, ?_⟩
  show (match makedirs ((afterRun env).dirExists OUTPUT_DIR) true with
        | Except.error e => (⟨[], [], [], Except.error e⟩ : RunResult)
        | Except.ok _ =>
          match loadAll (afterRun env) DATASET_FILES with
          | (console, Except.error e) => ⟨console, [], [], Except.error e⟩
          | (console, Except.ok all_data) => afterLoad console (afterRun env) all_data)
      = plot_distributions env
  rw [makedirs_exist_ok]
  show (match loadAll (afterRun env) DATASET_FILES with
        | (console, Except.error e) => (⟨console, [], [], Except.error e⟩ : RunResult)
        | (console, Except.ok all_data) => afterLoad console (afterRun env) all_data)
      = plot_distributions env
  unfold plot_distributions
  rw [makedirs_exist_ok]
  rfl

theorem lookupData_cons_self (p : String × (List ℚ × List ℝ))
    (t : List (String × (List ℚ × List ℝ))) :
    lookupData (p :: t) p.1 = p.2 := by
  simp [lookupData, List.find?_cons]

theorem lookupData_cons_ne (p : String × (List ℚ × List ℝ))
    (t : List (String × (List ℚ × List ℝ))) (l : String) (h : p.1 ≠ l) :
    lookupData (p :: t) l = lookupData t l := by
  simp [lookupData, List.find?_cons, h]

theorem filter_lookup (ad : List (String × (List ℚ × List ℝ)))
    (P : List ℚ × List ℝ → Bool)
    (hnd : (ad.map Prod.fst).Nodup) :
    (ad.filter (fun p => P p.2)).map Prod.fst
      = (ad.map Prod.fst).filter (fun l => P (lookupData ad l)) := by
  induction ad with
  | nil => rfl
  | cons p t ih =>
      simp only [List.map_cons, List.nodup_cons] at hnd
      obtain ⟨hp, hnd⟩ := hnd
      have hcong : (t.map Prod.fst).filter (fun l => P (lookupData (p :: t) l))
          = (t.map Prod.fst).filter (fun l => P (lookupData t l)) := by
        apply List.filter_congr
        intro l hl
        have hne : p.1 ≠ l := fun hh => hp (hh ▸ hl)
        rw [lookupData_cons_ne p t l hne]
      simp only [List.filter_cons, List.map_cons, lookupData_cons_self, hcong, ih hnd]
      by_cases hP : P p.2 <;> simp [hP, ih hnd]

/-- C10: after the aggregation loop the results mapping has exactly one entry
per configured label in configured order (missing files stored as two empty
sequences), and each plotting pass draws its curves from that mapping in the
same order, skipping exactly the labels whose relevant sequence is empty. -/
theorem claim10_results_mapping (env : Env) (cs : List String)
    (ad : List (String × (List ℚ × List ℝ)))
    (hl : loadAll env DATASET_FILES = (cs, Except.ok ad)) :
    ad.map Prod.fst = DATASET_FILES.map Prod.fst
    ∧ (∀ label info, (label, info) ∈ DATASET_FILES →
         env.pathExists info.path = false →
         (label, (([] : List ℚ), ([] : List ℝ))) ∈ ad)
    ∧ (∀ fig, (plot_distributions env).figs[0]? = some fig →
         fig.curves.map Prod.fst
           = (DATASET_FILES.map Prod.fst).filter
               (fun l => !(lookupData ad l).1.isEmpty))
    ∧ (∀ fig, (plot_distributions env).figs[1]? = some fig →
         fig.curves.map Prod.fst
           = (DATASET_FILES.map Prod.fst).filter
               (fun l => !(lookupData ad l).2.isEmpty)) := by
  have had := loadAll_ok_eq env DATASET_FILES cs ad hl
  have hkeys : ad.map Prod.fst = DATASET_FILES.map Prod.fst := by
    rw [had, List.map_map]
    rfl
  have hnd : (ad.map Prod.fst).Nodup := by
    rw [hkeys]
    decide
  have mainE : ((energyFigBase ad).curves).map Prod.fst
      = (DATASET_FILES.map Prod.fst).filter
          (fun l => !(lookupData ad l).1.isEmpty) := by
    simp only [energyFigBase]
    rw [List.map_map]
    rw [show (Prod.fst ∘ fun p : String × (List ℚ × List ℝ) =>
          (p.1, (lookupInfo p.1).color)) = Prod.fst from rfl]
    rw [filter_lookup ad (fun d => !d.1.isEmpty) hnd, hkeys]
  have mainF : ((forceFigBase ad).curves).map Prod.fst
      = (DATASET_FILES.map Prod.fst).filter
          (fun l => !(lookupData ad l).2.isEmpty) := by
    simp only [forceFigBase]
    rw [List.map_map]
    rw [show (Prod.fst ∘ fun p : String × (List ℚ × List ℝ) =>
          (p.1, (lookupInfo p.1).color)) = Prod.fst from rfl]
    rw [filter_lookup ad (fun d => !d.2.isEmpty) hnd, hkeys]
  refine ⟨hkeys, ?_, ?_, ?_⟩
  · intro label info hmem hmiss
    rw [had]
    have hload : (label, (([] : List ℚ), ([] : List ℝ)))
        = (label, (load_and_process_data env info.path).2.getD ([], [])) := by
      rw [load_missing env info.path hmiss]
      rfl
    rw [hload]
    exact List.mem_map_of_mem _ hmem
  · intro fig hfig
    rw [plot_eq_afterLoad env cs ad hl] at hfig
    rcases afterLoad_cases cs env ad with
        ⟨_, heq⟩ | ⟨pE, _, _, heq⟩ | ⟨pE, _, _, _, heq⟩
      | ⟨pE, pF, _, _, _, _, heq⟩ | ⟨pE, pF, _, _, _, _, heq⟩ <;>
      rw [heq] at hfig <;>
      simp only [List.getElem?_cons_zero, Option.some.injEq] at hfig <;>
      rw [← hfig] <;>
      exact mainE
  · intro fig hfig
    rw [plot_eq_afterLoad env cs ad hl] at hfig
    rcases afterLoad_cases cs env ad with
        ⟨_, heq⟩ | ⟨pE, _, _, heq⟩ | ⟨pE, _, _, _, heq⟩
      | ⟨pE, pF, _, _, _, _, heq⟩ | ⟨pE, pF, _, _, _, _, heq⟩ <;>
      rw [heq] at hfig
    · exact Option.noConfusion hfig
    · exact Option.noConfusion hfig
    · simp only [List.getElem?_cons_succ, List.getElem?_cons_zero,
        Option.some.injEq] at hfig
      rw [← hfig]
      exact mainF
    · simp only [List.getElem?_cons_succ, List.getElem?_cons_zero,
        Option.some.injEq] at hfig
      rw [← hfig]
      exact mainF
    · simp only [List.getElem?_cons_succ, List.getElem?_cons_zero,
        Option.some.injEq] at hfig
      rw [← hfig]
      exact mainF

theorem lookupInfo_of_mem (l : String) (i : DatasetInfo)
    (h : (l, i) ∈ DATASET_FILES) : lookupInfo l = i := by
  simp only [DATASET_FILES, List.mem_cons, List.not_mem_nil, or_false] at h
  rcases h with h | h | h <;>
    · injection h with h1 h2
      subst h1
      subst h2
      rfl

theorem lookupData_map_of_mem (env : Env) (label : String) (info : DatasetInfo)
    (hmem : (label, info) ∈ DATASET_FILES) :
    lookupData (DATASET_FILES.map (fun li =>
        (li.1, (load_and_process_data env li.2.path).2.getD ([], [])))) label
      = (load_and_process_data env info.path).2.getD ([], []) := by
  simp only [DATASET_FILES, List.mem_cons, List.not_mem_nil, or_false] at hmem
  rcases hmem with h | h | h <;>
    · injection h with h1 h2
      subst h1
      subst h2
      rfl

theorem curve_labels_energy (ad : List (String × (List ℚ × List ℝ)))
    (hnd : (ad.map Prod.fst).Nodup) :
    ((energyFigBase ad).curves).map Prod.fst
      = (ad.map Prod.fst).filter (fun l => !(lookupData ad l).1.isEmpty) := by
  simp only [energyFigBase]
  rw [List.map_map,
    show (Prod.fst ∘ fun p : String × (List ℚ × List ℝ) =>
      (p.1, (lookupInfo p.1).color)) = Prod.fst from rfl]
  exact filter_lookup ad (fun d => !d.1.isEmpty) hnd

theorem curve_labels_force (ad : List (String × (List ℚ × List ℝ)))
    (hnd : (ad.map Prod.fst).Nodup) :
    ((forceFigBase ad).curves).map Prod.fst
      = (ad.map Prod.fst).filter (fun l => !(lookupData ad l).2.isEmpty) := by
  simp only [forceFigBase]
  rw [List.map_map,
    show (Prod.fst ∘ fun p : String × (List ℚ × List ℝ) =>
      (p.1, (lookupInfo p.1).color)) = Prod.fst from rfl]
  exact filter_lookup ad (fun d => !d.2.isEmpty) hnd

/-- C3 (amended): a missing configured path yields a warning and two empty
sequences without aborting, and that label contributes no curve to either
figure; every other label with non-empty data still renders provided the run
completes — which fails when the missing dataset is the first one (`Train`),
since axis scaling then has no data. -/
theorem claim3_missing_path_amended (env : Env) (label : String) (info : DatasetInfo)
    (hmem : (label, info) ∈ DATASET_FILES)
    (hmiss : env.pathExists info.path = false) :
    load_and_process_data env info.path = ([warningMsg info.path], some ([], []))
    ∧ (∀ fig ∈ (plot_distributions env).figs, label ∉ fig.curves.map Prod.fst)
    ∧ ((plot_distributions env).outcome = Except.ok () →
        ∃ f1 f2, (plot_distributions env).figs = [f1, f2]
          ∧ f1.saved = some (energyPath, 300)
          ∧ f2.saved = some (forcePath, 300)
          ∧ (∀ l i, (l, i) ∈ DATASET_FILES →
              ∀ es ms, (load_and_process_data env i.path).2 = some (es, ms) →
                (es ≠ [] → (l, i.color) ∈ f1.curves)
                ∧ (ms ≠ [] → (l, i.color) ∈ f2.curves))) := by
  refine ⟨load_missing env info.path hmiss, ?_⟩
  cases hmk : loadAll env DATASET_FILES with
  | mk cs r =>
    cases r with
    | error e =>
        rw [plot_loadAll_error env cs e hmk]
        exact ⟨by simp, fun hok => Except.noConfusion hok⟩
    | ok ad =>
        rw [plot_eq_afterLoad env cs ad hmk]
        have had := loadAll_ok_eq env DATASET_FILES cs ad hmk
        have hkeys : ad.map Prod.fst = DATASET_FILES.map Prod.fst := by
          rw [had, List.map_map]
          rfl
        have hnd : (ad.map Prod.fst).Nodup := by
          rw [hkeys]
          decide
        have hlookL : lookupData ad label = ([], []) := by
          rw [had, lookupData_map_of_mem env label info hmem,
            load_missing env info.path hmiss]
          rfl
        have hnotE : label ∉ ((energyFigBase ad).curves).map Prod.fst := by
          rw [curve_labels_energy ad hnd]
          intro h
          have hpred := (List.mem_filter.mp h).2
          rw [hlookL] at hpred
          simp at hpred
        have hnotF : label ∉ ((forceFigBase ad).curves).map Prod.fst := by
          rw [curve_labels_force ad hnd]
          intro h
          have hpred := (List.mem_filter.mp h).2
          rw [hlookL] at hpred
          simp at hpred
        have hposE : ∀ l i, (l, i) ∈ DATASET_FILES → ∀ es ms,
            (load_and_process_data env i.path).2 = some (es, ms) → es ≠ [] →
            (l, i.color) ∈ (energyFigBase ad).curves := by
          intro l i hmem2 es ms hload hne
          have hmem3 : (l, (es, ms)) ∈ ad := by
            rw [had]
            have hsh : (l, (es, ms))
                = (l, (load_and_process_data env i.path).2.getD ([], [])) := by
              rw [hload]
              rfl
            rw [hsh]
            exact List.mem_map_of_mem _ hmem2
          have hfilter : (l, (es, ms)) ∈ ad.filter (fun p => !p.2.1.isEmpty) := by
            rw [List.mem_filter]
            refine ⟨hmem3, ?_⟩
            cases es with
            | nil => exact absurd rfl hne
            | cons a t => rfl
          have hm : (l, (lookupInfo l).color)
              ∈ (ad.filter (fun p => !p.2.1.isEmpty)).map
                  (fun p : String × (List ℚ × List ℝ) => (p.1, (lookupInfo p.1).color)) :=
            List.mem_map_of_mem _ hfilter
          rw [lookupInfo_of_mem l i hmem2] at hm
          exact hm
        have hposF : ∀ l i, (l, i) ∈ DATASET_FILES → ∀ es ms,
            (load_and_process_data env i.path).2 = some (es, ms) → ms ≠ [] →
            (l, i.color) ∈ (forceFigBase ad).curves := by
          intro l i hmem2 es ms hload hne
          have hmem3 : (l, (es, ms)) ∈ ad := by
            rw [had]
            have hsh : (l, (es, ms))
                = (l, (load_and_process_data env i.path).2.getD ([], [])) := by
              rw [hload]
              rfl
            rw [hsh]
            exact List.mem_map_of_mem _ hmem2
          have hfilter : (l, (es, ms)) ∈ ad.filter (fun p => !p.2.2.isEmpty) := by
            rw [List.mem_filter]
            refine ⟨hmem3, ?_⟩
            cases ms with
            | nil => exact absurd rfl hne
            | cons a t => rfl
          have hm : (l, (lookupInfo l).color)
              ∈ (ad.filter (fun p => !p.2.2.isEmpty)).map
                  (fun p : String × (List ℚ × List ℝ) => (p.1, (lookupInfo p.1).color)) :=
            List.mem_map_of_mem _ hfilter
          rw [lookupInfo_of_mem l i hmem2] at hm
          exact hm
        constructor
        · intro fig hfig
          rcases afterLoad_cases cs env ad with
              ⟨_, heq⟩ | ⟨pE, _, _, heq⟩ | ⟨pE, _, _, _, heq⟩
            | ⟨pE, pF, _, _, _, _, heq⟩ | ⟨pE, pF, _, _, _, _, heq⟩ <;>
            rw [heq] at hfig
          · rw [List.mem_singleton] at hfig
            subst hfig
            exact hnotE
          · rw [List.mem_singleton] at hfig
            subst hfig
            exact hnotE
          · rcases List.mem_pair.mp hfig with h | h <;> subst h
            · exact hnotE
            · exact hnotF
          · rcases List.mem_pair.mp hfig with h | h <;> subst h
            · exact hnotE
            · exact hnotF
          · rcases List.mem_pair.mp hfig with h | h <;> subst h
            · exact hnotE
            · exact hnotF
        · intro hok
          rcases afterLoad_cases cs env ad with
              ⟨_, heq⟩ | ⟨pE, _, _, heq⟩ | ⟨pE, _, _, _, heq⟩
            | ⟨pE, pF, _, _, _, _, heq⟩ | ⟨pE, pF, _, _, _, _, heq⟩ <;>
            rw [heq] at hok ⊢
          · exact Except.noConfusion hok
          · exact Except.noConfusion hok
          · exact Except.noConfusion hok
          · exact Except.noConfusion hok
          · refine ⟨_, _, rfl, rfl, rfl, ?_⟩
            intro l i hmem2 es ms hload
            exact ⟨fun hne => hposE l i hmem2 es ms hload hne,
                   fun hne => hposF l i hmem2 es ms hload hne⟩

/-- C9 (amended): whenever the energy figure exists, its x-axis label is the
literal LaTeX string `'$E^{\rm atm}$ (eV/atom)'` (not the prose
"normalized atomic energy (eV/atom)"), its y-axis label is `'Density'`
(capitalized), its legend is titled `'Dataset'`, and its gridlines are
horizontal only (`axis='y'`). -/
theorem claim9_labels_amended (env : Env) (fig : PlotSpec)
    (hfig : (plot_distributions env).figs[0]? = some fig) :
    fig.xlabel = energyXLabel ∧ fig.ylabel = "Density"
    ∧ fig.legendTitle = "Dataset" ∧ fig.gridAxis = "y" := by
  cases hmk : loadAll env DATASET_FILES with
  | mk cs r =>
    cases r with
    | error e =>
        rw [plot_loadAll_error env cs e hmk] at hfig
        exact Option.noConfusion hfig
    | ok ad =>
        rw [plot_eq_afterLoad env cs ad hmk] at hfig
        rcases afterLoad_cases cs env ad with
            ⟨_, heq⟩ | ⟨pE, _, _, heq⟩ | ⟨pE, _, _, _, heq⟩
          | ⟨pE, pF, _, _, _, _, heq⟩ | ⟨pE, pF, _, _, _, _, heq⟩ <;>
          rw [heq] at hfig <;>
          simp only [List.getElem?_cons_zero, Option.some.injEq] at hfig <;>
          rw [← hfig] <;>
          exact ⟨rfl, rfl, rfl, rfl⟩

/-- C9 witness: the amended label facts at the concrete `env9` run. -/
theorem claim9_labels_applied :
    fig9.xlabel = energyXLabel ∧ fig9.ylabel = "Density"
    ∧ fig9.legendTitle = "Dataset" ∧ fig9.gridAxis = "y" :=
  claim9_labels_amended env9 fig9 rfl

/-- C9 counterexample: a completed run whose energy plot carries the literal
xlabel `'$E^{\rm atm}$ (eV/atom)'` and ylabel `'Density'`, not the claimed
"normalized atomic energy (eV/atom)" and "density". -/
theorem claim9_counterexample :
    (plot_distributions envC4).outcome = Except.ok ()
    ∧ (plot_distributions envC4).figs.map PlotSpec.xlabel = [energyXLabel, forceXLabel]
    ∧ energyXLabel ≠ "normalized atomic energy (eV/atom)"
    ∧ (plot_distributions envC4).figs.map PlotSpec.ylabel = ["Density", "Density"]
    ∧ "Density" ≠ "density" :=
  ⟨rfl, rfl, by decide, rfl, by decide⟩

/-- C10 witness: the `env9` run, where the mapping holds one (empty) entry
per configured label in configured order. -/
theorem claim10_results_mapping_applied :
    ([("Train", (([] : List ℚ), ([] : List ℝ))),
      ("Validation", ([], [])), ("Test", ([], []))].map Prod.fst)
      = DATASET_FILES.map Prod.fst :=
  (claim10_results_mapping env9
     [warningMsg "train.xyz", warningMsg "valid.xyz", warningMsg "test.xyz"]
     [("Train", ([], [])), ("Validation", ([], [])), ("Test", ([], []))] rfl).1

/-- C3 counterexample: with the first configured path (`train.xyz`) missing,
the extractor warns and substitutes empty data, but the run aborts at the
axis-scaling percentile: nothing is saved, the force figure never exists, so
the other labels with non-empty data (here Validation) do not render. -/
theorem claim3_counterexample :
    envTmiss.pathExists "train.xyz" = false
    ∧ (load_and_process_data envTmiss "train.xyz").1 = [warningMsg "train.xyz"]
    ∧ (load_and_process_data envTmiss "valid.xyz").2.map Prod.fst
        = some [(frameV.e_total - e0_sum frameV) / (frameV.symbols.length : ℚ)]
    ∧ (load_and_process_data envTmiss "valid.xyz").2.map Prod.snd
        = some [norm3 (0, 0, 1)]
    ∧ (plot_distributions envTmiss).ops = []
    ∧ (plot_distributions envTmiss).figs.map PlotSpec.saved = [none]
    ∧ (plot_distributions envTmiss).outcome
        = Except.error "IndexError: percentile of empty sequence" :=
  ⟨rfl, rfl, rfl, rfl, rfl, rfl, rfl⟩

/-- C3 witness: the amended missing-path behaviour at a concrete non-first
label. -/
theorem claim3_missing_path_applied :
    load_and_process_data envVmiss "valid.xyz"
      = ([warningMsg "valid.xyz"], some ([], [])) :=
  (claim3_missing_path_amended envVmiss "Validation"
     ⟨"valid.xyz", get_jhu_color "Spirit Blue"⟩ (by decide) rfl).1
